import Mathlib

/-!
Verification of the go-filecoin state-access layer against its specification.

Part 1 embeds types/sorted_cid_set.go (the Ordered CID Set).
Part 2 embeds the ChainStateReadWriter facade from the plumbing/cst package,
with external collaborators (chain index, block store, state tree, actor-code
registry, specs-actors init actor) modelled as record fields / spec-modelled
functions, as noted on each definition.
-/

namespace Filecoin

/-- A content identifier, modelled by its three components (go-cid: a CID is
determined by version, codec and the multihash bytes; cid.Cid.Equals compares
the whole identifier, which coincides with structural equality of the triple).
The hash field holds the bytes returned by Cid.Hash(). -/
structure Cid where
  version : Nat
  codec : Nat
  hash : List Nat
deriving DecidableEq

def defaultCid : Cid := ⟨0, 0, []⟩

/-- Go bytes.Compare(a, b) < 0: strict lexicographic order on byte slices,
a proper prefix being smaller. -/
def bytesLess : List Nat → List Nat → Bool
  | [], [] => false
  | [], _ :: _ => true
  | _ :: _, [] => false
  | a :: as, b :: bs => if a < b then true else if b < a then false else bytesLess as bs

/-- Embeds cidLess from types/sorted_cid_set.go (lines 205-209), exactly as
written there: p1.Version < p2.Version, OR p1.Codec < p2.Codec, OR
bytes.Compare(c1.Hash(), c2.Hash()) < 0 — with no equality guards between the
three clauses. -/
def cidLess (c1 c2 : Cid) : Bool :=
  decide (c1.version < c2.version) || decide (c1.codec < c2.codec) ||
    bytesLess c1.hash c2.hash

/-- The order the spec describes (section 3): lexicographic on the triple
(version, codec, hash-bytes). Stated from the spec's words, for comparison
with cidLess above. -/
def cidLexLess (c1 c2 : Cid) : Bool :=
  decide (c1.version < c2.version) ||
    (decide (c1.version = c2.version) &&
      (decide (c1.codec < c2.codec) ||
        (decide (c1.codec = c2.codec) && bytesLess c1.hash c2.hash)))

/-- The loop of Go sort.Search: i, j := 0, n; while i < j, probe h = (i+j)/2,
moving i to h+1 when f(h) is false and j to h when it is true; return i.
The interval halves every iteration, so fuel n (passed by sortSearch below)
is ample for an interval of length n; on exhaustion the current i is
returned, which for sufficient fuel is the loop's exit value. -/
def searchLoop (f : Nat → Bool) : Nat → Nat → Nat → Nat
  | 0, i, _ => i
  | fuel + 1, i, j =>
    if i < j then
      let h := (i + j) / 2
      if !f h then searchLoop f fuel (h + 1) j
      else searchLoop f fuel i h
    else i

/-- Go sort.Search(n, f). -/
def sortSearch (n : Nat) (f : Nat → Bool) : Nat := searchLoop f n 0 n

/-- SortedCidSet from types/sorted_cid_set.go: a slice of CIDs that should be
maintained sorted. -/
structure SortedCidSet where
  s : List Cid
deriving DecidableEq

/-- SortedCidSet.search: sort.Search(len(s.s), fun i => !cidLess(s.s[i], id)).
The probe index is always within bounds, so getD's default is never used. -/
def SortedCidSet.search (s : SortedCidSet) (id : Cid) : Nat :=
  sortSearch s.s.length (fun i => !cidLess (s.s.getD i defaultCid) id)

/-- SortedCidSet.Len. -/
def SortedCidSet.len (s : SortedCidSet) : Nat := s.s.length

/-- SortedCidSet.Add: binary-search for the position; if the element there
equals id, return false without change; otherwise insert id at that position
(append one slot, shift the tail right, overwrite) and return true. -/
def SortedCidSet.add (s : SortedCidSet) (id : Cid) : SortedCidSet × Bool :=
  let idx := s.search id
  if decide (idx < s.s.length) && (s.s.getD idx defaultCid == id) then (s, false)
  else (⟨s.s.take idx ++ id :: s.s.drop idx⟩, true)

/-- SortedCidSet.Has. -/
def SortedCidSet.has (s : SortedCidSet) (id : Cid) : Bool :=
  let idx := s.search id
  decide (idx < s.s.length) && (s.s.getD idx defaultCid == id)

/-- SortedCidSet.Remove: binary-search for the position; if the element there
equals id, splice it out and return true, else return false. -/
def SortedCidSet.remove (s : SortedCidSet) (id : Cid) : SortedCidSet × Bool :=
  let idx := s.search id
  if decide (idx < s.s.length) && (s.s.getD idx defaultCid == id) then
    (⟨s.s.take idx ++ s.s.drop (idx + 1)⟩, true)
  else (s, false)

/-- SortedCidSet.Clear. -/
def SortedCidSet.clear (_s : SortedCidSet) : SortedCidSet := ⟨[]⟩

/-- NewSortedCidSet(ids...): Add each id in turn to an empty set. -/
def newSortedCidSet (ids : List Cid) : SortedCidSet :=
  ids.foldl (fun s id => (s.add id).1) ⟨[]⟩

/-- The iterator over a SortedCidSet (sortedCidSetIterator in the source). -/
structure sortedCidSetIterator where
  s : List Cid
  i : Nat

/-- SortedCidSet.Iter. -/
def SortedCidSet.iter (s : SortedCidSet) : sortedCidSetIterator := ⟨s.s, 0⟩

/-- sortedCidSetIterator.Value: the element at the cursor, nil (none) at the
end. -/
def sortedCidSetIterator.value (it : sortedCidSetIterator) : Option Cid :=
  if it.i < it.s.length then some (it.s.getD it.i defaultCid) else none

/-- sortedCidSetIterator.Complete. -/
def sortedCidSetIterator.complete (it : sortedCidSetIterator) : Bool :=
  decide (it.i ≥ it.s.length)

/-- sortedCidSetIterator.Next: advance the cursor when not at the end; return
whether an item remains. -/
def sortedCidSetIterator.next (it : sortedCidSetIterator) : sortedCidSetIterator × Bool :=
  if it.i < it.s.length then (⟨it.s, it.i + 1⟩, decide (it.i + 1 < it.s.length))
  else (it, false)

/-- The loop body of SortedCidSet.Equals, exactly as in the source: it runs
s.Len() times over the two iterators obtained from Iter(), comparing
i1.Value() with i2.Value() each round; the source never advances either
iterator inside the loop, so the iterators are loop-invariant here as well. -/
def equalsLoop (i1 i2 : sortedCidSetIterator) : Nat → Bool
  | 0 => true
  | k + 1 => if !(i1.value == i2.value) then false else equalsLoop i1 i2 k

/-- SortedCidSet.Equals: false when the lengths differ, else the loop above. -/
def SortedCidSet.equals (s s2 : SortedCidSet) : Bool :=
  if s.len != s2.len then false
  else equalsLoop s.iter s2.iter s.len

/-- The adjacent-pairs check shared by the CBOR unmarshal transform (lines
22-28) and UnmarshalJSON (lines 153-157): every consecutive pair must satisfy
cidLess. -/
def checkSorted : List Cid → Bool
  | a :: b :: rest => cidLess a b && checkSorted (b :: rest)
  | _ => true

/-- The CBOR marshal transform: a SortedCidSet serializes as its slice. -/
def SortedCidSet.marshalCbor (s : SortedCidSet) : List Cid := s.s

/-- The CBOR unmarshal transform (init, lines 20-30): reject any list with an
adjacent pair not in cidLess order, else wrap the list unchanged. -/
def sortedCidSetFromCborList (l : List Cid) : Except String SortedCidSet :=
  if checkSorted l then .ok ⟨l⟩
  else .error "invalid serialization of SortedCidSet"

/-- SortedCidSet.UnmarshalJSON after the generic JSON list parse: the same
adjacent-pairs check, then the list is installed unchanged. -/
def SortedCidSet.unmarshalJSON (l : List Cid) : Except String SortedCidSet :=
  if checkSorted l then .ok ⟨l⟩
  else .error "invalid input - cids not sorted"

instance {ε α : Type} [DecidableEq ε] [DecidableEq α] : DecidableEq (Except ε α) := fun a b =>
  match a, b with
  | .ok x, .ok y =>
    if h : x = y then .isTrue (by rw [h]) else .isFalse (fun c => h (Except.ok.inj c))
  | .error x, .error y =>
    if h : x = y then .isTrue (by rw [h]) else .isFalse (fun c => h (Except.error.inj c))
  | .ok _, .error _ => .isFalse (fun c => Except.noConfusion c)
  | .error _, .ok _ => .isFalse (fun c => Except.noConfusion c)

/-! Concrete CIDs used to evaluate the Ordered CID Set operations. Components
are written (version, codec, hash-byte). -/

def cidA : Cid := ⟨0, 0, [0]⟩
def cidB : Cid := ⟨0, 0, [1]⟩
def cidC : Cid := ⟨0, 0, [2]⟩

def cidX : Cid := ⟨1, 1, [0]⟩
def cidY : Cid := ⟨0, 2, [0]⟩
def cidZ : Cid := ⟨1, 0, [0]⟩

def cidP : Cid := ⟨0, 1, [1]⟩
def cidQ : Cid := ⟨1, 0, [1]⟩
def cidR : Cid := ⟨2, 0, [1]⟩

/-- Claim C3: cidLess is claimed to be a strict total order equal to the
lexicographic order on (version, codec, hash). It is not: the missing
equality guards make it non-asymmetric. For the distinct CIDs (1,0,0x00) and
(0,1,0x00), cidLess holds in both directions, while the lexicographic order
of the spec orders them one way only. -/
theorem c3_cidLess_not_strict_total_order :
    cidLess ⟨1, 0, [0]⟩ ⟨0, 1, [0]⟩ = true ∧
    cidLess ⟨0, 1, [0]⟩ ⟨1, 0, [0]⟩ = true ∧
    (⟨1, 0, [0]⟩ : Cid) ≠ ⟨0, 1, [0]⟩ ∧
    cidLexLess ⟨1, 0, [0]⟩ ⟨0, 1, [0]⟩ = false ∧
    cidLexLess ⟨0, 1, [0]⟩ ⟨1, 0, [0]⟩ = true := by
  decide

/-- Claim C1: Equals is claimed to compare the two iterations position by
position. The implementation never advances its iterators, so it only ever
compares the first elements: the sorted two-element sets {(0,0,00),(0,0,01)}
and {(0,0,00),(0,0,02)} differ at position 1 yet Equals returns true. -/
theorem c1_equals_ignores_positions :
    SortedCidSet.equals ⟨[cidA, cidB]⟩ ⟨[cidA, cidC]⟩ = true ∧
    checkSorted [cidA, cidB] = true ∧
    checkSorted [cidA, cidC] = true ∧
    cidB ≠ cidC := by
  decide

/-- Claim C6: strict sortedness is claimed to be preserved by every public
mutation. The set built by Add((1,1,00)), Add((0,2,00)), Add((1,0,00)) has
internal slice [(1,1,00),(0,2,00),(1,0,00)], which is pairwise cidLess-sorted;
Remove((0,2,00)) finds and removes the middle element and leaves
[(1,1,00),(1,0,00)], which is not sorted — cidLess is not transitive, so
splicing out an element can break the invariant. -/
theorem c6_remove_breaks_sortedness :
    newSortedCidSet [cidX, cidY, cidZ] = ⟨[cidX, cidY, cidZ]⟩ ∧
    checkSorted [cidX, cidY, cidZ] = true ∧
    SortedCidSet.remove ⟨[cidX, cidY, cidZ]⟩ cidY = (⟨[cidX, cidZ]⟩, true) ∧
    checkSorted [cidX, cidZ] = false := by
  decide

/-- Claim C7: Add of an already-present CID is claimed to return false and
leave the set unchanged. On the reachable sorted set
[(0,1,01),(1,0,01),(2,0,01)], adding the member (0,1,01) again makes the
binary search miss the existing occurrence (cidLess is not a strict order),
so Add appends a duplicate and returns true. -/
theorem c7_add_reinserts_existing_member :
    newSortedCidSet [cidP, cidQ, cidR] = ⟨[cidP, cidQ, cidR]⟩ ∧
    checkSorted [cidP, cidQ, cidR] = true ∧
    cidP ∈ [cidP, cidQ, cidR] ∧
    SortedCidSet.add ⟨[cidP, cidQ, cidR]⟩ cidP = (⟨[cidP, cidQ, cidR, cidP]⟩, true) := by
  decide

/-- Claim C5: deserialization is claimed to reject duplicates. The list
[(0,1,01),(1,0,01),(2,0,01),(0,1,01)] contains its first CID twice, yet every
adjacent pair satisfies cidLess (cidLess is not transitive), so both the CBOR
unmarshal transform and UnmarshalJSON accept it. -/
theorem c5_decode_accepts_duplicates :
    sortedCidSetFromCborList [cidP, cidQ, cidR, cidP] = .ok ⟨[cidP, cidQ, cidR, cidP]⟩ ∧
    SortedCidSet.unmarshalJSON [cidP, cidQ, cidR, cidP] = .ok ⟨[cidP, cidQ, cidR, cidP]⟩ ∧
    [cidP, cidQ, cidR, cidP].count cidP = 2 := by
  decide

/-! Part 2: the ChainStateReadWriter facade (src/unnamed/part_000, package cst). -/

/-- Addresses (go-address): either the undefined address, a canonical
identifier (ID-protocol) address, or a non-canonical public-key-style address
(standing for the SECP256K1/BLS/Actor protocols, whose distinctions the
facade never inspects). -/
inductive Address where
  | undef
  | id (n : Nat)
  | pubkey (n : Nat)
deriving DecidableEq

/-- Modelled from the spec: the distinguished address-registry (init) actor
lives at a well-known fixed identifier address (builtin.InitActorAddr). -/
def initActorAddr : Address := .id 1

/-- Modelled from the spec: the reserved value-transfer method number
(builtin.MethodSend), the sentinel method that carries no decodable payload. -/
def methodSend : Nat := 0

/-- Errors of the facade. Distinct constructors keep the taxonomy of
section 7 distinguishable; wrap models errors.Wrap with a non-nil cause,
and other models collaborator-generated errors. -/
inductive Err where
  | errNotFound
  | errNoMethod
  | errNoActorImpl
  | errActorNotFound
  | errDecode
  | missingExport (m : Nat)
  | wrap (msg : String) (e : Err)
  | other (n : Nat)
deriving DecidableEq

/-- github.com/pkg/errors.Wrapf: returns nil when the wrapped error is nil,
otherwise a new error carrying the message and the cause. -/
def wrapf (e : Option Err) (msg : String) : Option Err :=
  match e with
  | none => none
  | some err => some (.wrap msg err)

/-- Modelled from the spec: a tipset key is the ordered deduplicated set of
the tipset's block CIDs (block.TipSetKey, not under src/). -/
def TipSetKey := List Cid
deriving instance DecidableEq for TipSetKey

/-- block.UndefTipSet.Key(): the key of the undefined tipset. -/
def undefTipSetKey : TipSetKey := ([] : List Cid)

/-- Modelled from the spec: a tipset owns its key (block.TipSet, not under
src/); only the key is relevant to the facade's head management. -/
structure TipSet where
  key : TipSetKey
deriving DecidableEq

/-- Modelled from the spec: an actor record holds a code-implementation
identifier (absent for an "empty" actor that only received value), a
head-state CID, a balance and a call sequence number (actor.Actor, not under
src/). -/
structure ActorRecord where
  code : Option Cid
  head : Cid
  balance : Nat
  callSeqNum : Nat
deriving DecidableEq

def defaultActor : ActorRecord := ⟨none, defaultCid, 0, 0⟩

/-- Modelled from the spec: actor.Actor.Empty — an actor is empty when it has
no code identifier. -/
def ActorRecord.empty (a : ActorRecord) : Bool := a.code.isNone

/-- Modelled from the spec: the per-tipset state tree exposes
GetActor(ctx, address) returning the Go triple (actor, found, err)
(vmstate.Tree, not under src/). -/
structure StateTree where
  getActor : Address → Option ActorRecord × Bool × Option Err

/-- Modelled from the spec: the address-registry (init) actor's head state
holds the address-to-identifier mapping (initactor.State of specs-actors). -/
structure InitActorState where
  addressMap : List (Address × Nat)
deriving DecidableEq

/-- Modelled from the spec: initactor.State.ResolveAddress — an address
already in canonical identifier form is returned unchanged without touching
the map (fast-path identity); otherwise the address-to-identifier map is
queried, failing with ActorNotFound when no mapping exists. -/
def InitActorState.resolveAddress (st : InitActorState) (a : Address) : Address × Option Err :=
  match a with
  | .id n => (.id n, none)
  | _ =>
    match st.addressMap.find? (fun p => p.1 == a) with
    | some p => (.id p.2, none)
    | none => (.undef, some .errActorNotFound)

/-- Modelled from the spec: objects held by the content-addressed block
store; a block either carries a well-formed init-actor state payload or
arbitrary raw bytes. -/
inductive Block where
  | initStateBlock (st : InitActorState)
  | rawBlock (data : List Nat)
deriving DecidableEq

/-- Modelled from the spec: encoding.Decode of a block's raw data into the
init-actor state shape succeeds exactly on well-formed such payloads and
fails with a decode error otherwise (section 4.2). -/
def decodeInitState (b : Block) : Except Err InitActorState :=
  match b with
  | .initStateBlock st => .ok st
  | .rawBlock _ => .error .errDecode

/-- The method-signature token returned by the actor-code registry. -/
def MethodSig := Nat
deriving instance DecidableEq for MethodSig

/-- Modelled from the spec: the executable implementation returned by the
actor-code registry; Signature(methodNumber) yields the signature or an
error when the implementation does not export the method. -/
structure Executable where
  signature : Nat → Except Err MethodSig

/-- The ChainStateReadWriter facade with its collaborators flattened into
record fields: getHead/getTipSet/getTipSetState model the chainReadWriter
interface, bstoreGet the block store's Get, getActorImpl the actor-code
registry (vm.ActorCodeLoader.GetActorImpl). -/
structure ChainStateReadWriter where
  getHead : TipSetKey
  getTipSet : TipSetKey → Except Err TipSet
  getTipSetState : TipSetKey → Except Err StateTree
  bstoreGet : Cid → Except Err Block
  getActorImpl : Cid → Except Err Executable

/-- ChainStateReadWriter.Head: the collaborator's GetHead. -/
def ChainStateReadWriter.head (chn : ChainStateReadWriter) : TipSetKey := chn.getHead

/-- ChainStateReadWriter.ResolveAddressAt (part_000 lines 222-248): load the
state tree; get the actor at the well-known init address — propagating a
lookup error, and on found=false returning Undef with errors.Wrapf applied
to the (necessarily nil) err; then fetch the init actor's head block, decode
it as init-actor state, and delegate to the state's ResolveAddress. -/
def ChainStateReadWriter.resolveAddressAt (chn : ChainStateReadWriter)
    (tipKey : TipSetKey) (addr : Address) : Address × Option Err :=
  match chn.getTipSetState tipKey with
  | .error e => (.undef, some (.wrap "failed to load latest state" e))
  | .ok st =>
    let r := st.getActor initActorAddr
    if r.2.2.isSome then (.undef, r.2.2)
    else if !r.2.1 then (.undef, wrapf r.2.2 "no actor at address")
    else
      match chn.bstoreGet ((r.1.getD defaultActor).head) with
      | .error e => (.undef, some e)
      | .ok blk =>
        match decodeInitState blk with
        | .error e => (.undef, some e)
        | .ok state => state.resolveAddress addr

/-- ChainStateReadWriter.GetActorAt (part_000 lines 185-204): load the state
tree, resolve the address, then look the resolved identifier up in the tree;
a nil-error lookup with found=false becomes types.ErrNotFound. -/
def ChainStateReadWriter.getActorAt (chn : ChainStateReadWriter)
    (tipKey : TipSetKey) (addr : Address) : Option ActorRecord × Option Err :=
  match chn.getTipSetState tipKey with
  | .error e => (none, some (.wrap "failed to load latest state" e))
  | .ok st =>
    let rr := chn.resolveAddressAt tipKey addr
    if rr.2.isSome then (none, rr.2)
    else
      let ga := st.getActor rr.1
      if ga.2.2.isSome then (none, ga.2.2)
      else if !ga.2.1 then (none, some .errNotFound)
      else (ga.1, none)

/-- ChainStateReadWriter.GetActor: GetActorAt at the current head. -/
def ChainStateReadWriter.getActor (chn : ChainStateReadWriter)
    (addr : Address) : Option ActorRecord × Option Err :=
  chn.getActorAt chn.getHead addr

/-- ChainStateReadWriter.GetActorSignature (part_000 lines 262-286): the
reserved Send method short-circuits to ErrNoMethod; otherwise get the actor
(wrapping failures), fail with ErrNoActorImpl on an empty actor, resolve the
code implementation through the registry (wrapping failures), and turn a
Signature error into a missing-export error carrying the method number. -/
def ChainStateReadWriter.getActorSignature (chn : ChainStateReadWriter)
    (actorAddr : Address) (method : Nat) : Option MethodSig × Option Err :=
  if method = methodSend then (none, some .errNoMethod)
  else
    match chn.getActor actorAddr with
    | (_, some e) => (none, some (.wrap "failed to get actor" e))
    | (actr, none) =>
      let a := actr.getD defaultActor
      if a.empty then (none, some .errNoActorImpl)
      else
        match chn.getActorImpl (a.code.getD defaultCid) with
        | .error e => (none, some (.wrap "failed to load actor code" e))
        | .ok executable =>
          match executable.signature method with
          | .error _ => (none, some (.missingExport method))
          | .ok sig => (some sig, none)

/-- ChainStateReadWriter.SetHead (part_000 lines 288-295): look the key up in
the chain store; on success hand the tipset to the collaborator SetHead.
Modelled from the spec: the collaborator atomically moves the head pointer to
the given tipset (so GetHead subsequently returns its key), failures leaving
the prior head intact. -/
def ChainStateReadWriter.setHead (chn : ChainStateReadWriter)
    (key : TipSetKey) : Option Err × ChainStateReadWriter :=
  match chn.getTipSet key with
  | .error e => (some e, chn)
  | .ok headTs => (none, { chn with getHead := headTs.key })

/-- The observable behaviour of chain.Import on one input stream. Modelled
from the spec: chain.Import (not under src/) reads the archive, writes every
object of the stream into the store it is handed (via Put, the only method
the carStore wrapper exposes), and returns the archive's head key, or an
error for a malformed or disconnected archive. -/
structure CarStream where
  blocks : List (Cid × Block)
  root : TipSetKey
  err : Option Err

/-- The carStore wrapper around the facade's blockstore: Put adds blocks;
reads fall through to the existing contents. -/
def carStorePutAll (get : Cid → Except Err Block) (bs : List (Cid × Block)) :
    Cid → Except Err Block :=
  fun c =>
    match bs.find? (fun p => p.1 == c) with
    | some p => .ok p.2
    | none => get c

/-- ChainStateReadWriter.ChainImport (part_000 lines 317-325): run
chain.Import against a carStore wrapping the facade's blockstore; on error
return the undefined tipset key with the error, else the imported head key.
Only the blockstore contents change; the head pointer is never touched. -/
def ChainStateReadWriter.chainImport (chn : ChainStateReadWriter)
    (stream : CarStream) : (TipSetKey × Option Err) × ChainStateReadWriter :=
  let chn' := { chn with bstoreGet := carStorePutAll chn.bstoreGet stream.blocks }
  match stream.err with
  | some e => ((undefTipSetKey, some e), chn')
  | none => ((stream.root, none), chn')

/-! Concrete model instances: a chain whose single tipset kA carries a
well-formed state (registry actor present, one mapped public-key address,
one empty actor, one actor with code), and a sibling chain whose state tree
has no registry actor. -/

def kcidA : Cid := ⟨1, 113, [1]⟩
def kA : TipSetKey := ([kcidA] : List Cid)
def initHeadCid : Cid := ⟨1, 113, [10]⟩
def initCodeCid : Cid := ⟨1, 113, [21]⟩
def codeCid : Cid := ⟨1, 113, [20]⟩
def acctHeadCid : Cid := ⟨1, 113, [30]⟩

def initStA : InitActorState := ⟨[(.pubkey 42, 7)]⟩
def initActorRec : ActorRecord := ⟨some initCodeCid, initHeadCid, 0, 0⟩
def emptyActorRec : ActorRecord := ⟨none, acctHeadCid, 5, 0⟩
def codedActorRec : ActorRecord := ⟨some codeCid, acctHeadCid, 5, 1⟩

def execA : Executable := ⟨fun m => if m = 2 then .ok (99 : Nat) else .error (.other 4)⟩

def stA : StateTree :=
  ⟨fun a =>
    if a = initActorAddr then (some initActorRec, true, none)
    else if a = Address.id 7 then (some emptyActorRec, true, none)
    else if a = Address.id 8 then (some codedActorRec, true, none)
    else (none, false, none)⟩

def chnA : ChainStateReadWriter :=
  { getHead := kA
    getTipSet := fun k => if k = kA then .ok ⟨kA⟩ else .error (.other 1)
    getTipSetState := fun k => if k = kA then .ok stA else .error (.other 2)
    bstoreGet := fun c => if c = initHeadCid then .ok (.initStateBlock initStA) else .error (.other 3)
    getActorImpl := fun c => if c = codeCid then .ok execA else .error (.other 5) }

/-- A state tree with no actor at all: in particular the registry (init)
actor is absent, and its GetActor reports found=false with a nil error. -/
def stB : StateTree := ⟨fun _ => (none, false, none)⟩

/-- The same chain as chnA except that the tipset's state tree is stB. -/
def chnB : ChainStateReadWriter :=
  { chnA with getTipSetState := fun k => if k = kA then .ok stB else .error (.other 2) }

/-- Claim C2: when the state tree has no actor at the registry (init)
address, ResolveAddressAt is claimed to return a non-nil error with the
undefined address. The undefined address is returned, but the error is nil:
the code reaches errors.Wrapf only with the nil err from the found=false
GetActor result, and pkg/errors.Wrapf of nil is nil, so the caller observes
success carrying the undefined address. -/
theorem c2_resolveAddress_missing_registry_nil_error :
    chnB.resolveAddressAt kA (.pubkey 42) = (Address.undef, none) := by
  rfl

/-- Claim C4 counterexample: for the identifier address id 7, the result of
ResolveAddressAt depends on the registry actor — on chnA (registry present)
the address comes back unchanged, while on chnB, identical except for the
state tree, the same call yields the undefined address. So ResolveAddressAt
does consult the registry actor even for canonical identifier addresses, and
does not always return such an address unchanged. -/
theorem c4_resolve_consults_registry :
    chnA.resolveAddressAt kA (.id 7) = (.id 7, none) ∧
    chnB.resolveAddressAt kA (.id 7) = (.undef, none) ∧
    Address.id 7 ≠ Address.undef := by
  refine ⟨rfl, rfl, by decide⟩

/-- Claim C4 as amended: ResolveAddressAt always loads the state tree and
fetches and decodes the registry (init) actor, and provided those steps
succeed it returns an identifier address unchanged with no error — the
identity fast path sits inside the registry state's resolver, after the
registry access. -/
theorem c4_resolve_id_identity :
    ∀ (chn : ChainStateReadWriter) (tipKey : TipSetKey) (st : StateTree)
      (initA : ActorRecord) (blk : Block) (ist : InitActorState) (n : Nat),
      chn.getTipSetState tipKey = .ok st →
      st.getActor initActorAddr = (some initA, true, none) →
      chn.bstoreGet initA.head = .ok blk →
      decodeInitState blk = .ok ist →
      chn.resolveAddressAt tipKey (.id n) = (.id n, none) := by
  intro chn tipKey st initA blk ist n h1 h2 h3 h4
  simp only [ChainStateReadWriter.resolveAddressAt, h1, h2, h3, h4,
    Option.isSome_none, Bool.false_eq_true, if_false, Bool.not_true,
    Option.getD_some, InitActorState.resolveAddress]

/-- Claim C4 witness: the amended statement at the concrete chain chnA. -/
theorem c4_resolve_id_identity_witness :
    chnA.resolveAddressAt kA (.id 12) = (.id 12, none) :=
  c4_resolve_id_identity chnA kA stA initActorRec (.initStateBlock initStA) initStA 12
    rfl rfl rfl rfl

/-- Claim C9: when address resolution returns without error and the state
tree's lookup of the resolved identifier reports found=false with a nil
error, GetActorAt fails with exactly types.ErrNotFound — not a decode or
wrapped store error. -/
theorem c9_getActorAt_notFound :
    ∀ (chn : ChainStateReadWriter) (tipKey : TipSetKey) (addr : Address)
      (st : StateTree) (idA : Address) (o : Option ActorRecord),
      chn.getTipSetState tipKey = .ok st →
      chn.resolveAddressAt tipKey addr = (idA, none) →
      st.getActor idA = (o, false, none) →
      chn.getActorAt tipKey addr = (none, some Err.errNotFound) := by
  intro chn tipKey addr st idA o h1 h2 h3
  simp only [ChainStateReadWriter.getActorAt, h1, h2, h3,
    Option.isSome_none, Bool.false_eq_true, if_false, Bool.not_false, if_true]

/-- Claim C9 witness: on chnA the identifier address id 9 resolves to itself
but has no actor record, and GetActorAt reports ErrNotFound. -/
theorem c9_getActorAt_notFound_witness :
    chnA.getActorAt kA (.id 9) = (none, some Err.errNotFound) :=
  c9_getActorAt_notFound chnA kA (.id 9) stA (.id 9) none rfl rfl rfl

/-- Claim C10: GetActorSignature fails with ErrNoMethod on the reserved Send
method for every chain model whatsoever — the result does not depend on any
collaborator, which formalizes "without looking up the actor at all";
otherwise an actor retrieved without error but empty yields ErrNoActorImpl,
and a loaded code implementation whose Signature call fails yields the
missing-export error carrying the method number. -/
theorem c10_getActorSignature_errors :
    (∀ (chn : ChainStateReadWriter) (a : Address),
      chn.getActorSignature a methodSend = (none, some Err.errNoMethod)) ∧
    (∀ (chn : ChainStateReadWriter) (a : Address) (m : Nat) (actr : Option ActorRecord),
      m ≠ methodSend →
      chn.getActor a = (actr, none) →
      (actr.getD defaultActor).empty = true →
      chn.getActorSignature a m = (none, some Err.errNoActorImpl)) ∧
    (∀ (chn : ChainStateReadWriter) (a : Address) (m : Nat) (actr : Option ActorRecord)
      (ex : Executable) (e : Err),
      m ≠ methodSend →
      chn.getActor a = (actr, none) →
      (actr.getD defaultActor).empty = false →
      chn.getActorImpl ((actr.getD defaultActor).code.getD defaultCid) = .ok ex →
      ex.signature m = .error e →
      chn.getActorSignature a m = (none, some (Err.missingExport m))) := by
  refine ⟨?_, ?_, ?_⟩
  · intro chn a
    simp only [ChainStateReadWriter.getActorSignature, if_pos rfl, ite_true]
  · intro chn a m actr hm hga hempty
    simp only [ChainStateReadWriter.getActorSignature, if_neg hm, hga, hempty, if_true]
  · intro chn a m actr ex e hm hga hempty himpl hsig
    simp only [ChainStateReadWriter.getActorSignature, if_neg hm, hga, hempty,
      Bool.false_eq_true, if_false, himpl, hsig]

/-- Claim C10 witness: on chnA, the Send method gives ErrNoMethod; method 5
on the empty actor id 7 gives ErrNoActorImpl; method 5 on the coded actor
id 8, whose implementation only exports method 2, gives the missing-export
error for method 5. -/
theorem c10_getActorSignature_errors_witness :
    chnA.getActorSignature (.id 8) methodSend = (none, some Err.errNoMethod) ∧
    chnA.getActorSignature (.id 7) 5 = (none, some Err.errNoActorImpl) ∧
    chnA.getActorSignature (.id 8) 5 = (none, some (Err.missingExport 5)) :=
  ⟨c10_getActorSignature_errors.1 chnA (.id 8),
   c10_getActorSignature_errors.2.1 chnA (.id 7) 5 (some emptyActorRec)
     (by decide) rfl rfl,
   c10_getActorSignature_errors.2.2 chnA (.id 8) 5 (some codedActorRec) execA (.other 4)
     (by decide) rfl rfl rfl rfl⟩

/-- Claim C8: ChainImport leaves the head pointer untouched for every chain
state and every import stream, whether the import succeeds or fails; the
head changes only through an explicit SetHead, which moves it to the key of
the tipset found for the requested key. -/
theorem c8_chainImport_preserves_head :
    ∀ (chn : ChainStateReadWriter) (stream : CarStream),
      ((chn.chainImport stream).2).head = chn.head ∧
      (∀ (key : TipSetKey) (ts : TipSet),
        chn.getTipSet key = .ok ts →
        ((chn.setHead key).2).head = ts.key) := by
  intro chn stream
  constructor
  · simp only [ChainStateReadWriter.chainImport, ChainStateReadWriter.head]
    cases stream.err <;> rfl
  · intro key ts h
    simp only [ChainStateReadWriter.setHead, h, ChainStateReadWriter.head]

/-- Claim C8 witness: on chnA, importing a stream carrying one raw block
leaves the head at kA, and an explicit SetHead kA moves the head to kA. -/
theorem c8_chainImport_preserves_head_witness :
    ((chnA.chainImport ⟨[(⟨1, 113, [9]⟩, .rawBlock [1])], kA, none⟩).2).head = chnA.head ∧
    ((chnA.setHead kA).2).head = kA :=
  ⟨(c8_chainImport_preserves_head chnA ⟨[(⟨1, 113, [9]⟩, .rawBlock [1])], kA, none⟩).1,
   (c8_chainImport_preserves_head chnA ⟨[], kA, none⟩).2 kA ⟨kA⟩ rfl⟩

end Filecoin
